import Mathlib

/-!
Shallow embedding of the `console_log` crate (src/lib.rs and src/style.rs):
a logger routing records of the `log` façade to the browser console.
Host console output is modelled as the list of console invocations a call
performs; the façade's global registration state is passed explicitly.
-/

/-- Severity levels of the external `log` façade, an ordered enumeration.
The numeric value follows the façade's discriminants (Error = 1 … Trace = 5),
which its comparison operators use. -/
inductive Level
  | error
  | warn
  | info
  | debug
  | trace
  deriving DecidableEq

/-- Numeric discriminant of a level in the façade's ordering. -/
def Level.toNat : Level → Nat
  | .error => 1
  | .warn => 2
  | .info => 3
  | .debug => 4
  | .trace => 5

/-- Severity filter of the external façade (`log::LevelFilter`), with `off`
strictly below every level. -/
inductive LevelFilter
  | off
  | error
  | warn
  | info
  | debug
  | trace
  deriving DecidableEq

/-- Numeric discriminant of a filter in the façade's ordering. -/
def LevelFilter.toNat : LevelFilter → Nat
  | .off => 0
  | .error => 1
  | .warn => 2
  | .info => 3
  | .debug => 4
  | .trace => 5

/-- The façade's `Level::to_level_filter`: the filter admitting exactly this
level and the more urgent ones. -/
def Level.to_level_filter : Level → LevelFilter
  | .error => .error
  | .warn => .warn
  | .info => .info
  | .debug => .debug
  | .trace => .trace

/-- Modelled from the spec: the façade's display rendering of a severity,
used for the level label of the styled composite string (uppercase names). -/
def Level.display : Level → String
  | .error => "ERROR"
  | .warn => "WARN"
  | .info => "INFO"
  | .debug => "DEBUG"
  | .trace => "TRACE"

/-- A log record of the façade: severity, the display-formatted message text
(`record.args()`), the target identifier, and optional source location. -/
structure Record where
  level : Level
  args : String
  target : String
  file : Option String
  line : Option Nat
  deriving DecidableEq

/-- The five output methods of the host console object. -/
inductive ConsoleOp
  | error
  | warn
  | info
  | log
  | debug
  deriving DecidableEq

/-- One invocation of a host console method: either the 1-argument unstyled
variant, or the 4-argument styled variant carrying a composite message plus
three style strings. -/
inductive ConsoleCall
  | call1 (op : ConsoleOp) (msg : String)
  | call4 (op : ConsoleOp) (msg : String)
      (levelStyle : String) (fileLineStyle : String) (textStyle : String)
  deriving DecidableEq

/-- The host console method an invocation targets. -/
def ConsoleCall.op : ConsoleCall → ConsoleOp
  | .call1 op _ => op
  | .call4 op _ _ _ _ => op

/-- The message string an invocation carries as its first argument. -/
def ConsoleCall.msg : ConsoleCall → String
  | .call1 _ msg => msg
  | .call4 _ msg _ _ _ => msg

/-- Log message styling table, from src/style.rs. -/
structure Style where
  trace : String
  debug : String
  info : String
  warn : String
  error : String
  file_line : String
  text : String

/-- The `bg_color!` helper of src/style.rs: white text, padding, and the
given background color. -/
def bg_color (color : String) : String :=
  "color: white; padding: 0 3px; background: " ++ color ++ ";"

/-- `Style::default` from src/style.rs. -/
def Style.default : Style where
  trace := bg_color "gray"
  debug := bg_color "blue"
  info := bg_color "green"
  warn := bg_color "orange"
  error := bg_color "darkred"
  file_line := "font-weight: bold; color: inherit"
  text := "background: inherit; color: inherit"

/-- The `STYLE` constant of src/lib.rs (color feature). -/
def STYLE : Style := Style.default

/-- The styled composite message built in src/lib.rs (color path): percent-c
markers around the level label, then file and line separated by a colon
(file falling back to the record's target, line falling back to the literal
text noted as unknown), then a newline and the message text. -/
def formatMessage (record : Record) : String :=
  "%c" ++ record.level.display ++ "%c " ++ (record.file.getD record.target) ++ ":" ++
    (match record.line with
     | none => "[Unknown]"
     | some line => toString line) ++ " %c\n" ++ record.args

/-- src/lib.rs `pub fn log`: print a record to the browser console at the
appropriate level. `color` selects the build-time "color" feature path.
Returns the host console invocations the call performs. -/
def console_log.log (color : Bool) (record : Record) : List ConsoleCall :=
  if color then
    let console_fn :=
      match record.level with
      | Level.error => ConsoleOp.error
      | Level.warn => ConsoleOp.warn
      | Level.info => ConsoleOp.info
      | Level.debug => ConsoleOp.log
      | Level.trace => ConsoleOp.debug
    let message := formatMessage record
    let level_style :=
      match record.level with
      | Level.trace => STYLE.trace
      | Level.debug => STYLE.debug
      | Level.info => STYLE.info
      | Level.warn => STYLE.warn
      | Level.error => STYLE.error
    let file_line_style := STYLE.file_line
    let text_style := STYLE.text
    [ConsoleCall.call4 console_fn message level_style file_line_style text_style]
  else
    let console_fn :=
      match record.level with
      | Level.error => ConsoleOp.error
      | Level.warn => ConsoleOp.warn
      | Level.info => ConsoleOp.info
      | Level.debug => ConsoleOp.log
      | Level.trace => ConsoleOp.debug
    [ConsoleCall.call1 console_fn record.args]

/-- `Log::enabled` for `WebConsoleLogger` (src/lib.rs): the record's level
compared against the façade's global max level, using the façade's numeric
comparison of a level with a filter. -/
def WebConsoleLogger.enabled (max_level : LevelFilter) (level : Level) : Bool :=
  decide (level.toNat ≤ max_level.toNat)

/-- `Log::log` for `WebConsoleLogger` (src/lib.rs): return early when the
record is not enabled, otherwise dispatch it via the standalone function. -/
def WebConsoleLogger.log (color : Bool) (max_level : LevelFilter) (record : Record) :
    List ConsoleCall :=
  if WebConsoleLogger.enabled max_level record.level then console_log.log color record
  else []

/-- Modelled from the spec: the external façade's global state — the
registered sink (at most one, identified by name) and the global max level.
The façade starts with no sink and the filter off. -/
structure FacadeState where
  logger : Option String
  max_level : LevelFilter
  deriving DecidableEq

/-- The façade's error value for a rejected second registration. -/
inductive SetLoggerError
  | mk
  deriving DecidableEq

/-- Modelled from the spec: `log::set_logger`, the façade's set-once
registration point — it fails without touching the state when a sink is
already installed, and installs the given sink otherwise. -/
def log.set_logger (name : String) (s : FacadeState) :
    Except SetLoggerError Unit × FacadeState :=
  match s.logger with
  | some _ => (Except.error SetLoggerError.mk, s)
  | none => (Except.ok (), { s with logger := some name })

/-- Modelled from the spec: `log::set_max_level`, the façade's global
max-severity setter. -/
def log.set_max_level (f : LevelFilter) (s : FacadeState) : FacadeState :=
  { s with max_level := f }

/-- `Log::flush` for `WebConsoleLogger` (src/lib.rs): empty body — the state
is unchanged and no console invocation is performed. -/
def WebConsoleLogger.flush (s : FacadeState) : FacadeState × List ConsoleCall :=
  (s, [])

/-- src/lib.rs `init_with_level`: register the singleton logger (propagating
a registration failure before anything else runs), then set the global max
level from the given level. -/
def console_log.init_with_level (level : Level) (s : FacadeState) :
    Except SetLoggerError Unit × FacadeState :=
  match log.set_logger "WebConsoleLogger" s with
  | (Except.error e, s1) => (Except.error e, s1)
  | (Except.ok _, s1) => (Except.ok (), log.set_max_level level.to_level_filter s1)

/-- src/lib.rs `init`: `init_with_level` at the Info default. -/
def console_log.init (s : FacadeState) : Except SetLoggerError Unit × FacadeState :=
  console_log.init_with_level Level.info s

/-- Urgency of a severity in the spec's sense: Error is most urgent and
Trace least urgent. -/
def urgency : Level → Nat
  | .error => 4
  | .warn => 3
  | .info => 2
  | .debug => 1
  | .trace => 0

/-- The severity-to-host-operation mapping exactly as the spec states it:
Error to error, Warn to warn, Info to info, Debug to log, Trace to debug. -/
def hostOpFor : Level → ConsoleOp
  | .error => .error
  | .warn => .warn
  | .info => .info
  | .debug => .log
  | .trace => .debug

/-- The enabled check agrees with the spec's urgency ordering, for every
candidate severity and every level-valued threshold. -/
theorem enabled_urgency (S T : Level) :
    WebConsoleLogger.enabled T.to_level_filter S = true ↔ urgency T ≤ urgency S := by
  cases S <;> cases T <;> decide

/-- C1: for every record, the standalone dispatch — unstyled and styled
alike — performs exactly one host console invocation, and it targets the
operation mapped from the record's severity (Error to error, Warn to warn,
Info to info, Debug to log, Trace to debug); no other host operation is
invoked. -/
theorem dispatch_maps_severity_to_host_op :
    ∀ (color : Bool) (r : Record),
      (console_log.log color r).map ConsoleCall.op = [hostOpFor r.level] := by
  intro color r
  obtain ⟨lvl, args, tgt, file, line⟩ := r
  cases color <;> cases lvl <;> rfl

/-- C2: for every candidate severity S and every configured threshold T,
the sink's enabled check returns true iff the urgency of S is at or above
the urgency of T; the check is a pure function of the two inputs. -/
theorem enabled_iff_urgency_ge :
    ∀ (S T : Level),
      WebConsoleLogger.enabled T.to_level_filter S = true ↔ urgency T ≤ urgency S := by
  intro S T
  exact enabled_urgency S T

/-- C3: starting from a façade with no sink installed, the first
`init_with_level` returns Ok and installs the sink; a second call returns
the logger-already-set error as a value and leaves the installed sink and
threshold unchanged; and every further call on a state with any sink
installed fails the same way without changing the state. -/
theorem init_with_level_twice :
    ∀ (l1 l2 : Level) (f : LevelFilter),
      console_log.init_with_level l1 ⟨none, f⟩ =
        (Except.ok (), ⟨some "WebConsoleLogger", l1.to_level_filter⟩) ∧
      console_log.init_with_level l2 ⟨some "WebConsoleLogger", l1.to_level_filter⟩ =
        (Except.error SetLoggerError.mk, ⟨some "WebConsoleLogger", l1.to_level_filter⟩) ∧
      (∀ (l3 : Level) (name : String) (f2 : LevelFilter),
        console_log.init_with_level l3 ⟨some name, f2⟩ =
          (Except.error SetLoggerError.mk, ⟨some name, f2⟩)) := by
  intro l1 l2 f
  exact ⟨rfl, rfl, fun l3 name f2 => rfl⟩

/-- C4: in the unstyled variant, the single string argument passed to the
selected host console operation equals the record's display-formatted
message text exactly. -/
theorem unstyled_message_is_display_text :
    ∀ (r : Record), (console_log.log false r).map ConsoleCall.msg = [r.args] := by
  intro r
  rfl

/-- C5: in the styled variant, a record with no file uses the record's
target identifier in place of the file, and a record with no line uses the
literal text noted as unknown in place of the line number, never a numeric
placeholder. -/
theorem styled_fallbacks :
    ∀ (r : Record),
      (r.file = none →
        (console_log.log true r).map ConsoleCall.msg =
          ["%c" ++ r.level.display ++ "%c " ++ r.target ++ ":" ++
            (match r.line with
             | none => "[Unknown]"
             | some line => toString line) ++ " %c\n" ++ r.args]) ∧
      (r.line = none →
        (console_log.log true r).map ConsoleCall.msg =
          ["%c" ++ r.level.display ++ "%c " ++ (r.file.getD r.target) ++ ":" ++
            "[Unknown]" ++ " %c\n" ++ r.args]) := by
  intro r
  obtain ⟨lvl, args, tgt, file, line⟩ := r
  constructor
  · intro h
    cases h
    cases line <;> rfl
  · intro h
    cases h
    rfl

/-- Witness for C5 at a concrete record with neither file nor line. -/
theorem styled_fallbacks_witness :
    (⟨Level.info, "It works!", "mytarget", none, none⟩ : Record).file = none ∧
    (console_log.log true ⟨Level.info, "It works!", "mytarget", none, none⟩).map
        ConsoleCall.msg =
      ["%cINFO%c mytarget:[Unknown] %c\nIt works!"] :=
  ⟨rfl, (styled_fallbacks ⟨Level.info, "It works!", "mytarget", none, none⟩).1 rfl⟩

/-- C6: styled dispatch of a Warn record with file app.rs, line 42 and
message "disk low" produces one 4-argument invocation whose composite
string contains WARN, then the file-line pair, then the message, in that
relative order; its three style arguments are non-empty, and the warn-level
style differs from the error-level style. -/
theorem styled_warn_example :
    ∃ a b c d : String,
      console_log.log true ⟨Level.warn, "disk low", "app", some "app.rs", some 42⟩ =
        [ConsoleCall.call4 ConsoleOp.warn
          (a ++ "WARN" ++ b ++ "app.rs:42" ++ c ++ "disk low" ++ d)
          STYLE.warn STYLE.file_line STYLE.text] ∧
      STYLE.warn ≠ "" ∧ STYLE.file_line ≠ "" ∧ STYLE.text ≠ "" ∧
      STYLE.warn ≠ STYLE.error := by
  refine ⟨"%c", "%c ", " %c\n", "", ?_, ?_, ?_, ?_, ?_⟩ <;> decide

/-- C7: the sink's log method is all-or-nothing with respect to the
configured threshold: a record strictly below the threshold's urgency
produces no host console invocation at all, and a record at or above it
produces exactly the full standalone dispatch. -/
theorem sink_log_all_or_nothing :
    ∀ (color : Bool) (T : Level) (r : Record),
      (urgency r.level < urgency T →
        WebConsoleLogger.log color T.to_level_filter r = []) ∧
      (urgency T ≤ urgency r.level →
        WebConsoleLogger.log color T.to_level_filter r = console_log.log color r) := by
  intro color T r
  constructor
  · intro h
    have he : WebConsoleLogger.enabled T.to_level_filter r.level = false := by
      cases hb : WebConsoleLogger.enabled T.to_level_filter r.level
      · rfl
      · exact absurd ((enabled_urgency r.level T).mp hb) (Nat.not_le.mpr h)
    simp [WebConsoleLogger.log, he]
  · intro h
    have he : WebConsoleLogger.enabled T.to_level_filter r.level = true :=
      (enabled_urgency r.level T).mpr h
    simp [WebConsoleLogger.log, he]

/-- Witness for C7: a Debug record below an Info threshold produces
nothing; a Warn record above it produces the full dispatch. -/
theorem sink_log_all_or_nothing_witness :
    WebConsoleLogger.log false Level.info.to_level_filter
        ⟨Level.debug, "m", "t", none, none⟩ = [] ∧
    WebConsoleLogger.log false Level.info.to_level_filter
        ⟨Level.warn, "m", "t", none, none⟩ =
      console_log.log false ⟨Level.warn, "m", "t", none, none⟩ :=
  ⟨(sink_log_all_or_nothing false Level.info ⟨Level.debug, "m", "t", none, none⟩).1
      (by decide),
   (sink_log_all_or_nothing false Level.info ⟨Level.warn, "m", "t", none, none⟩).2
      (by decide)⟩

/-- C8: flush is a no-op — for every façade state it leaves the state
unchanged, performs no host console invocation, and cannot fail. -/
theorem flush_noop :
    ∀ (s : FacadeState), WebConsoleLogger.flush s = (s, []) := by
  intro s
  rfl

/-- C9: when `init_with_level` fails because a logger is already installed,
it returns the error before the max level is written, so the whole façade
state — threshold included — is exactly what it was before the call. -/
theorem init_fail_preserves_state :
    ∀ (level : Level) (name : String) (s : FacadeState), s.logger = some name →
      console_log.init_with_level level s = (Except.error SetLoggerError.mk, s) := by
  intro level name s h
  obtain ⟨lg, ml⟩ := s
  cases lg with
  | none => exact Option.noConfusion h
  | some n => rfl

/-- Witness for C9 at a concrete already-initialized state. -/
theorem init_fail_preserves_state_witness :
    (⟨some "other", LevelFilter.warn⟩ : FacadeState).logger = some "other" ∧
    console_log.init_with_level Level.debug ⟨some "other", LevelFilter.warn⟩ =
      (Except.error SetLoggerError.mk, ⟨some "other", LevelFilter.warn⟩) :=
  ⟨rfl, init_fail_preserves_state Level.debug "other" ⟨some "other", LevelFilter.warn⟩ rfl⟩

/-- C10: the standalone log function performs no threshold check — even for
a record whose severity is disabled under a given global max level (for
instance the initial off filter, before any initialization), it still
performs exactly one host console invocation, targeting the mapped
operation. -/
theorem standalone_log_unconditional :
    ∀ (color : Bool) (r : Record) (f : LevelFilter),
      WebConsoleLogger.enabled f r.level = false →
        (console_log.log color r).map ConsoleCall.op = [hostOpFor r.level] ∧
        (console_log.log color r).length = 1 := by
  intro color r f _
  obtain ⟨lvl, args, tgt, file, line⟩ := r
  cases color <;> cases lvl <;> exact ⟨rfl, rfl⟩

/-- Witness for C10: an Error record is disabled under the off filter, yet
the standalone dispatch still performs its single mapped invocation. -/
theorem standalone_log_unconditional_witness :
    WebConsoleLogger.enabled LevelFilter.off Level.error = false ∧
    (console_log.log false ⟨Level.error, "boom", "app", none, none⟩).map ConsoleCall.op =
      [ConsoleOp.error] ∧
    (console_log.log false ⟨Level.error, "boom", "app", none, none⟩).length = 1 :=
  ⟨rfl,
   (standalone_log_unconditional false ⟨Level.error, "boom", "app", none, none⟩
      LevelFilter.off rfl).1,
   (standalone_log_unconditional false ⟨Level.error, "boom", "app", none, none⟩
      LevelFilter.off rfl).2⟩
